import Mathlib

/-!
Verification of the admission webhook in `pkg/admission/admission.go`
(prometheus-operator fork).

The Go code is shallowly embedded below:

* Kubernetes admission types (`AdmissionReview`, `AdmissionRequest`,
  `AdmissionResponse`, `metav1.Status`, …) become Lean structures keeping
  only the fields the package reads or writes.  Go `nil` pointers become
  `Option`.
* External collaborators that the file calls but whose code is not part of
  the package under inspection — the universal deserializer, `json.Unmarshal`,
  `promoperator.ValidateRule`, and the patch-generation helper — are passed in
  as function parameters, so theorems quantify over their behaviour and
  counterexamples instantiate them with their documented behaviour.
* A Go `nil` dereference (field access through a nil pointer, or a method
  call on a nil interface such as an unset `prometheus.Counter`) is a runtime
  panic; it is modelled by `Option`: a `none` result of an embedded function
  means the corresponding Go code panics and produces no value at all.
-/

/-! ## Basic admission data model -/

structure GroupVersionResource where
  group : String
  version : String
  resource : String
deriving Repr, DecidableEq

structure AdmissionRequest where
  uid : String
  resource : GroupVersionResource
  /-- `ar.Request.Object.Raw`: the raw serialized object payload. -/
  objectRaw : String
deriving Repr, DecidableEq

structure StatusCause where
  message : String
deriving Repr, DecidableEq

structure StatusDetails where
  name : String
  causes : List StatusCause
deriving Repr, DecidableEq

structure Status where
  status : String
  message : String
  reason : String
  code : Nat
  details : Option StatusDetails
deriving Repr, DecidableEq

structure AdmissionResponse where
  uid : String
  allowed : Bool
  result : Option Status
  patch : Option String
  /-- `v1.PatchTypeJSONPatch` is the string "JSONPatch". -/
  patchType : Option String
deriving Repr, DecidableEq

structure AdmissionReview where
  apiVersion : String
  kind : String
  request : Option AdmissionRequest
  response : Option AdmissionResponse
deriving Repr, DecidableEq

/-- The zero value `v1.AdmissionReview{}`. -/
def emptyAdmissionReview : AdmissionReview :=
  { apiVersion := "", kind := "", request := none, response := none }

/-! ## A checker for serialized JSON

Used to state patch well-formedness.  `pRun` is a fuelled recursive-descent
recognizer for (a strict subset of) RFC 8259 JSON text, operating on character
lists; a string accepted by `isJsonValueStr` is valid JSON.  The fuel
decreases on every step, so every function here is structurally recursive and
evaluates inside the kernel. -/

def isWsChar (c : Char) : Bool :=
  c = ' ' || c = '\n' || c = '\t' || c = '\r'

def skipWs : List Char → List Char
  | [] => []
  | c :: cs => if isWsChar c then skipWs cs else c :: cs

def isDigitB (c : Char) : Bool := '0' ≤ c && c ≤ '9'

def isHexB (c : Char) : Bool :=
  isDigitB c || ('a' ≤ c && c ≤ 'f') || ('A' ≤ c && c ≤ 'F')

/-- Consume the body of a JSON string literal after its opening quote,
returning the characters after the closing quote. -/
def pStr : Nat → List Char → Option (List Char)
  | 0, _ => none
  | fuel+1, cs =>
    match cs with
    | [] => none
    | c :: rest =>
      if c = '"' then some rest
      else if c = '\\' then
        match rest with
        | [] => none
        | e :: rest2 =>
          if e = '"' || e = '\\' || e = '/' || e = 'b' || e = 'f' || e = 'n'
              || e = 'r' || e = 't' then
            pStr fuel rest2
          else if e = 'u' then
            match rest2 with
            | h1 :: h2 :: h3 :: h4 :: rest3 =>
              if isHexB h1 && isHexB h2 && isHexB h3 && isHexB h4 then
                pStr fuel rest3
              else none
            | _ => none
          else none
      else if c.toNat < 32 then none
      else pStr fuel rest

/-- Drop a leading run of decimal digits. -/
def dropDigits : List Char → List Char
  | [] => []
  | c :: cs => if isDigitB c then dropDigits cs else c :: cs

/-- JSON integer part: `0` or a nonzero digit followed by digits. -/
def pInt : List Char → Option (List Char)
  | [] => none
  | c :: cs =>
    if c = '0' then some cs
    else if isDigitB c then some (dropDigits cs)
    else none

/-- Optional JSON fraction part. -/
def pFrac : List Char → Option (List Char)
  | '.' :: rest =>
    match rest with
    | c :: rest2 => if isDigitB c then some (dropDigits rest2) else none
    | [] => none
  | cs => some cs

/-- Optional JSON exponent part. -/
def pExpPart : List Char → Option (List Char)
  | [] => some []
  | c :: rest =>
    if c = 'e' || c = 'E' then
      match rest with
      | [] => none
      | s :: r2 =>
        if s = '+' || s = '-' then
          match r2 with
          | d :: r3 => if isDigitB d then some (dropDigits r3) else none
          | [] => none
        else if isDigitB s then some (dropDigits r2)
        else none
    else some (c :: rest)

def pNumber (cs : List Char) : Option (List Char) :=
  let cs1 := match cs with
    | '-' :: r => r
    | _ => cs
  match pInt cs1 with
  | none => none
  | some r1 =>
    match pFrac r1 with
    | none => none
    | some r2 => pExpPart r2

def pLit : List Char → Option (List Char)
  | 't' :: 'r' :: 'u' :: 'e' :: cs => some cs
  | 'f' :: 'a' :: 'l' :: 's' :: 'e' :: cs => some cs
  | 'n' :: 'u' :: 'l' :: 'l' :: cs => some cs
  | _ => none

/-- Grammatical position of the recognizer. -/
inductive PMode where
  | val
  | objBody
  | member
  | membersRest
  | arrBody
  | elemsRest
deriving Repr, DecidableEq

/-- One recognizer for all positions; the first argument is fuel. -/
def pRun : Nat → PMode → List Char → Option (List Char)
  | 0, _, _ => none
  | fuel+1, PMode.val, cs =>
    match cs with
    | [] => none
    | c :: rest =>
      if c = '"' then pStr (rest.length + 1) rest
      else if c = '\x7b' then pRun fuel PMode.objBody (skipWs rest)
      else if c = '[' then pRun fuel PMode.arrBody (skipWs rest)
      else if c = '-' || isDigitB c then pNumber (c :: rest)
      else pLit (c :: rest)
  | fuel+1, PMode.objBody, cs =>
    match cs with
    | '\x7d' :: rest => some rest
    | '"' :: rest => pRun fuel PMode.member rest
    | _ => none
  | fuel+1, PMode.member, cs =>
    match pStr (cs.length + 1) cs with
    | none => none
    | some afterKey =>
      match skipWs afterKey with
      | ':' :: afterColon =>
        match pRun fuel PMode.val (skipWs afterColon) with
        | none => none
        | some afterVal => pRun fuel PMode.membersRest (skipWs afterVal)
      | _ => none
  | fuel+1, PMode.membersRest, cs =>
    match cs with
    | '\x7d' :: rest => some rest
    | ',' :: rest =>
      match skipWs rest with
      | '"' :: r2 => pRun fuel PMode.member r2
      | _ => none
    | _ => none
  | fuel+1, PMode.arrBody, cs =>
    match cs with
    | ']' :: rest => some rest
    | _ =>
      match pRun fuel PMode.val cs with
      | none => none
      | some afterVal => pRun fuel PMode.elemsRest (skipWs afterVal)
  | fuel+1, PMode.elemsRest, cs =>
    match cs with
    | ']' :: rest => some rest
    | ',' :: rest =>
      match pRun fuel PMode.val (skipWs rest) with
      | none => none
      | some afterVal => pRun fuel PMode.elemsRest (skipWs afterVal)
    | _ => none

/-- `s` is one complete JSON value (with surrounding whitespace allowed). -/
def isJsonValueStr (s : String) : Bool :=
  match pRun (2 * s.length + 8) PMode.val (skipWs s.data) with
  | some rest => (skipWs rest).isEmpty
  | none => false

/-- `s` is one complete JSON value whose first significant character opens an
object. -/
def isJsonObjectStr (s : String) : Bool :=
  isJsonValueStr s &&
    (match skipWs s.data with
     | c :: _ => c = '\x7b'
     | [] => false)

/-! ## Substring helpers (for stating which patch fragment touches the
metadata annotations path) -/

/-- If `p` is a leading segment of `s`, return the remainder. -/
def dropSeq (p s : List Char) : Option (List Char) :=
  match p, s with
  | [], rest => some rest
  | _ :: _, [] => none
  | a :: ps, c :: cs => if a = c then dropSeq ps cs else none

/-- Does `needle` occur somewhere in the character list? -/
def containsSeq (needle : List Char) : List Char → Bool
  | [] => (dropSeq needle []).isSome
  | c :: cs => (dropSeq needle (c :: cs)).isSome || containsSeq needle cs

/-- The remainder of the character list just after the first occurrence of
`needle`. -/
def afterSeq (needle : List Char) : List Char → Option (List Char)
  | [] => dropSeq needle []
  | c :: cs =>
    match dropSeq needle (c :: cs) with
    | some rest => some rest
    | none => afterSeq needle cs

/-- Does the serialized patch fragment mention the metadata annotations
path? -/
def mentionsAnnPath (f : String) : Bool :=
  containsSeq "/metadata/annotations".data f.data

/-- The value of the `"path"` member of a serialized patch fragment, as the
fragments in this package print it. -/
def patchPath (f : String) : String :=
  match afterSeq "\"path\": \"".data f.data with
  | some rest => String.mk (rest.takeWhile (fun c => c ≠ '"'))
  | none => ""

/-! ## Package constants (`admission.go`, `const`/`var` blocks) -/

def addFirstAnnotationPatch : String :=
  "\x7b \"op\": \"add\", \"path\": \"/metadata/annotations\", \"value\": \x7b\"prometheus-operator-validated\": \"true\"\x7d\x7d"

def addAdditionalAnnotationPatch : String :=
  "\x7b \"op\": \"add\", \"path\": \"/metadata/annotations/prometheus-operator-validated\", \"value\": \"true\" \x7d"

def errUnmarshalAdmission : String := "Cannot unmarshal admission request"

def errUnmarshalRules : String := "Cannot unmarshal rules from spec"

def ruleResource : GroupVersionResource :=
  { group := "monitoring.coreos.com", version := "v1", resource := "prometheusrules" }

/-- `fmt` renders a `metav1.GroupVersionResource` value with the `%v` verb as
its fields separated by spaces between braces. -/
def gvrText (r : GroupVersionResource) : String :=
  "\x7b" ++ r.group ++ " " ++ r.version ++ " " ++ r.resource ++ "\x7d"

/-- The message of `fmt.Errorf("expected resource to be %v, but received %v",
ruleResource, ar.Request.Resource)`. -/
def resourceMismatchMessage (received : GroupVersionResource) : String :=
  "expected resource to be " ++ gvrText ruleResource ++ ", but received " ++ gvrText received

/-! ## `toAdmissionResponseFailure` -/

/-- `toAdmissionResponseFailure(message, errors)`.  Go errors appear here as
their `Error()` message strings.  The builder allocates `Result.Details` with
an empty cause list, fills the fixed status fields, and then, once per input
error, assigns `Details.Name = "prometheusrules"` and appends one cause with
that error's message; with zero input errors `Details.Name` keeps its zero
value `""`. -/
def toAdmissionResponseFailure (message : String) (errors : List String) : AdmissionResponse :=
  { uid := ""
    allowed := false
    result := some
      { status := "Failure"
        message := message
        reason := "Invalid"
        code := 422
        details := some
          { name := if errors.isEmpty then "" else "prometheusrules"
            causes := errors.map (fun e => { message := e }) } }
    patch := none
    patchType := none }

/-- The cause list carried by a response's failure result (empty when no
result or no details is attached). -/
def responseCauses (r : AdmissionResponse) : List StatusCause :=
  match r.result with
  | some st =>
    match st.details with
    | some d => d.causes
    | none => []
  | none => []

/-- `&v1.AdmissionResponse{Allowed: true}`: every other field keeps its zero
value. -/
def allowedResponse : AdmissionResponse :=
  { uid := "", allowed := true, result := none, patch := none, patchType := none }

/-! ## Counters and the `Admission` receiver

`prometheus.Counter` is a Go interface; the `Admission` struct's counter
fields start as its zero value `nil` and are only assigned by
`RegisterMetrics`.  Calling `Inc()` on a nil interface value panics, so
`Counter.inc` yields `none` when the counter was never registered. -/

structure Counter where
  registered : Bool
  value : Nat
deriving Repr, DecidableEq

def Counter.inc (c : Counter) : Option Counter :=
  if c.registered then some { c with value := c.value + 1 } else none

/-- The state of the `Admission` receiver that the package mutates: its two
counter fields.  (The logger field only produces log output and is not
modelled.) -/
structure Admission where
  validationErrorsCounter : Counter
  validationTriggeredCounter : Counter
deriving Repr, DecidableEq

/-- `New(logger)`: both counter fields keep their zero value (nil). -/
def newAdmission : Admission :=
  { validationErrorsCounter := { registered := false, value := 0 }
    validationTriggeredCounter := { registered := false, value := 0 } }

/-- `RegisterMetrics(validationTriggeredCounter, validationErrorsCounter)`. -/
def registerMetrics (a : Admission) (triggered errors : Counter) : Admission :=
  { a with validationTriggeredCounter := triggered, validationErrorsCounter := errors }

/-! ## The rule payload structures -/

/-- The typed domain object of the validate path.  Only `promRule.Spec` is
consumed (it is handed to the external validator), so the spec payload is
kept opaque. -/
structure PrometheusRule where
  spec : String
deriving Repr, DecidableEq

/-- Modelled from the spec: the `PrometheusRules` structure used by the
mutate path is declared elsewhere in this package (its file is not part of
the inspected sources); per the spec it is a lightweight structure exposing
only the annotations map and the still-raw specification bytes
(`rule.Annotations`, `rule.Spec.Raw`). -/
structure PrometheusRules where
  annotations : List (String × String)
  specRaw : String
deriving Repr, DecidableEq

/-! ## `mutatePrometheusRules` -/

/-- `mutatePrometheusRules(ar)`.  `unmarshalRules` stands for
`json.Unmarshal` into a `PrometheusRules`, and
`generatePatchesForNonStringLabelsAnnotations` for the external
patch-generation helper; both are external collaborators passed in as
functions.  The Go method first dereferences `ar.Request`, so an absent
request payload panics (`none`). -/
def mutatePrometheusRules
    (unmarshalRules : String → Except String PrometheusRules)
    (generatePatchesForNonStringLabelsAnnotations : String → Except String (List String))
    (ar : AdmissionReview) : Option AdmissionResponse :=
  match ar.request with
  | none => none
  | some req =>
    if req.resource ≠ ruleResource then
      some (toAdmissionResponseFailure "Unexpected resource kind"
        [resourceMismatchMessage req.resource])
    else
      match unmarshalRules req.objectRaw with
      | Except.error e => some (toAdmissionResponseFailure errUnmarshalAdmission [e])
      | Except.ok rule =>
        match generatePatchesForNonStringLabelsAnnotations rule.specRaw with
        | Except.error e => some (toAdmissionResponseFailure errUnmarshalRules [e])
        | Except.ok patches0 =>
          let annPatch := if rule.annotations.length = 0 then addFirstAnnotationPatch
            else addAdditionalAnnotationPatch
          some
            { uid := ""
              allowed := true
              result := none
              patch := some ("[" ++ String.intercalate "," (patches0 ++ [annPatch]) ++ "]")
              patchType := some "JSONPatch" }

/-- `mutatePrometheusRules` viewed as a method of the `Admission` receiver:
its body neither reads nor assigns the receiver's counter fields, so the
receiver state passes through unchanged. -/
def mutatePrometheusRulesA (a : Admission)
    (unmarshalRules : String → Except String PrometheusRules)
    (generatePatchesForNonStringLabelsAnnotations : String → Except String (List String))
    (ar : AdmissionReview) : Option (Admission × AdmissionResponse) :=
  (mutatePrometheusRules unmarshalRules generatePatchesForNonStringLabelsAnnotations ar).map
    (fun r => (a, r))

/-! ## `validatePrometheusRules` -/

/-- `validatePrometheusRules(ar)` as a transformer of the receiver state.
`unmarshalRule` stands for `json.Unmarshal` into a typed
`monitoringv1.PrometheusRule`, `validateRule` for
`promoperator.ValidateRule` (returning the messages of its error list); both
are external collaborators passed in as functions.  A `none` result is a
panic: an `Inc()` on an unregistered (nil) counter or a dereference of an
absent `ar.Request`. -/
def validatePrometheusRules (a : Admission)
    (unmarshalRule : String → Except String PrometheusRule)
    (validateRule : String → List String)
    (ar : AdmissionReview) : Option (Admission × AdmissionResponse) :=
  match a.validationTriggeredCounter.inc with
  | none => none
  | some ct =>
    let a := { a with validationTriggeredCounter := ct }
    match ar.request with
    | none => none
    | some req =>
      if req.resource ≠ ruleResource then
        match a.validationErrorsCounter.inc with
        | none => none
        | some ce =>
          some ({ a with validationErrorsCounter := ce },
            toAdmissionResponseFailure "Unexpected resource kind"
              [resourceMismatchMessage req.resource])
      else
        match unmarshalRule req.objectRaw with
        | Except.error e =>
          match a.validationErrorsCounter.inc with
          | none => none
          | some ce =>
            some ({ a with validationErrorsCounter := ce },
              toAdmissionResponseFailure errUnmarshalRules [e])
        | Except.ok promRule =>
          let errs := validateRule promRule.spec
          if errs.length ≠ 0 then
            match a.validationErrorsCounter.inc with
            | none => none
            | some ce =>
              some ({ a with validationErrorsCounter := ce },
                toAdmissionResponseFailure "Rules are not valid" errs)
          else
            some (a, allowedResponse)

/-! ## `serveAdmission` (transport layer) -/

/-- A failed `deserializer.Decode(body, nil, &requestedAdmissionReview)`:
the error, together with the state the decoder left in the freshly
constructed zero-value target review (for input the decoder cannot
interpret at all, the target stays `emptyAdmissionReview`). -/
structure DecodeErr where
  errMsg : String
  review : AdmissionReview
deriving Repr, DecidableEq

/-- Outcome of one handler invocation.  `goPanic` marks a nil dereference
inside the handler: the handler dies without writing a response body. -/
inductive ServeResult where
  | httpError (code : Nat) (msg : String)
  | goPanic
  | ok (review : AdmissionReview)
deriving Repr, DecidableEq

/-- The tail of `serveAdmission`, after `responseAdmissionReview.Response`
has been chosen: the code runs
`responseAdmissionReview.Response.UID = requestedAdmissionReview.Request.UID`
and then copies `APIVersion` and `Kind` from the request envelope, before
serializing.  The `UID` line dereferences `requestedAdmissionReview.Request`,
which panics when that pointer is nil. -/
def finalizeReview (requested : AdmissionReview) (resp : AdmissionResponse) : ServeResult :=
  match requested.request with
  | none => ServeResult.goPanic
  | some req =>
    ServeResult.ok
      { apiVersion := requested.apiVersion
        kind := requested.kind
        request := none
        response := some { resp with uid := req.uid } }

/-- `serveAdmission(w, r, admitFn)`.  `body = none` stands for a nil request
body or a failed read (both leave the byte slice empty); `decode` stands for
the registry-backed universal deserializer; `admitFn` is the admission
function selected by the route, yielding `none` when it panics.
`ServeResult.ok review` is the serialized review written with HTTP
status 200 (`json.Marshal` of this data never fails, and the write is
modelled as succeeding). -/
def serveAdmission (body : Option String) (contentType : String)
    (decode : String → Except DecodeErr AdmissionReview)
    (admitFn : AdmissionReview → Option AdmissionResponse) : ServeResult :=
  let bodyStr := body.getD ""
  if bodyStr.length = 0 then
    ServeResult.httpError 400 "request has no body"
  else if contentType ≠ "application/json" then
    ServeResult.httpError 415 "invalid Content-Type, want application/json"
  else
    match decode bodyStr with
    | Except.error e =>
      finalizeReview e.review
        (toAdmissionResponseFailure "Unable to deserialize request" [e.errMsg])
    | Except.ok requested =>
      match admitFn requested with
      | none => ServeResult.goPanic
      | some resp => finalizeReview requested resp

/-- The argument with which `serveAdmission` invokes `admitFn`, when it does:
the body must be non-empty, the content type must match, and decoding must
succeed; the argument is exactly the decoded envelope. -/
def serveAdmitArg (body : Option String) (contentType : String)
    (decode : String → Except DecodeErr AdmissionReview) : Option AdmissionReview :=
  let bodyStr := body.getD ""
  if bodyStr.length = 0 then none
  else if contentType ≠ "application/json" then none
  else
    match decode bodyStr with
    | Except.error _ => none
    | Except.ok requested => some requested

/-! ## Concrete instances of the external collaborators, and fixtures -/

def goodRequest : AdmissionRequest :=
  { uid := "87c67c4e-5fde-4609-a001-db582f82f450"
    resource := ruleResource
    objectRaw := "\x7b\x7d" }

def goodReview : AdmissionReview :=
  { apiVersion := "admission.k8s.io/v1"
    kind := "AdmissionReview"
    request := some goodRequest
    response := none }

/-- A structurally valid envelope that simply carries no `request` member:
the universal deserializer accepts it (the group/version/kind is registered)
and leaves `Request` nil. -/
def reviewNoReq : AdmissionReview :=
  { apiVersion := "admission.k8s.io/v1"
    kind := "AdmissionReview"
    request := none
    response := none }

def envelopeNoRequestBody : String :=
  "\x7b\"apiVersion\":\"admission.k8s.io/v1\",\"kind\":\"AdmissionReview\"\x7d"

def wrongRequest : AdmissionRequest :=
  { uid := "11111111-2222-3333-4444-555555555555"
    resource := { group := "apps", version := "v1", resource := "deployments" }
    objectRaw := "\x7b\x7d" }

def wrongReview : AdmissionReview :=
  { apiVersion := "admission.k8s.io/v1"
    kind := "AdmissionReview"
    request := some wrongRequest
    response := none }

/-- An `Admission` whose two counters have been registered (as `main` does at
startup). -/
def registeredAdmission : Admission :=
  registerMetrics newAdmission { registered := true, value := 0 }
    { registered := true, value := 0 }

def decodeGarbageMsg : String :=
  "couldn't get version/kind; json parse error"

/-- The deserializer's behaviour on a body it cannot interpret: an error, the
zero-value target untouched. -/
def decodeGarbage : String → Except DecodeErr AdmissionReview :=
  fun _ => Except.error { errMsg := decodeGarbageMsg, review := emptyAdmissionReview }

/-- The deserializer's behaviour on `envelopeNoRequestBody`: success, with a
nil `Request`. -/
def decodeToNoReq : String → Except DecodeErr AdmissionReview :=
  fun _ => Except.ok reviewNoReq

def decodeToGood : String → Except DecodeErr AdmissionReview :=
  fun _ => Except.ok goodReview

def admitAllow : AdmissionReview → Option AdmissionResponse :=
  fun _ => some allowedResponse

def ruleNoAnn : PrometheusRules :=
  { annotations := [], specRaw := "\x7b\x7d" }

def unmRulesEmptyAnn : String → Except String PrometheusRules :=
  fun _ => Except.ok ruleNoAnn

def genNoPatches : String → Except String (List String) :=
  fun _ => Except.ok []

def promRule0 : PrometheusRule := { spec := "groups" }

def unmRuleOk : String → Except String PrometheusRule :=
  fun _ => Except.ok promRule0

def valNoErrs : String → List String := fun _ => []

def valTwoErrs : String → List String :=
  fun _ => ["group 0, rule 0: unknown expr", "group 0, rule 1: bad label value"]

/-! ## Claims about the transport layer -/

/-- C1: the claim says the response envelope's UID/APIVersion/Kind equal the
request envelope's on every code path including decode failure.  On the
decode-failure path the request envelope is the untouched zero value with a
nil `Request`, and the transport's copy
`responseAdmissionReview.Response.UID = requestedAdmissionReview.Request.UID`
dereferences that nil pointer: the handler panics, and no response envelope
(correlated or otherwise) is produced at all.  This theorem evaluates the
handler at such an input: a non-empty `application/json` body that the
deserializer rejects. -/
theorem serve_decode_failure_panics :
    serveAdmission (some "notjson") "application/json" decodeGarbage admitAllow
      = ServeResult.goPanic := rfl

/-- C2: the claim says a body that fails to decode yields a well-formed
review whose response is an allowed=false failure result, delivered with
HTTP 200.  The handler does build exactly that failure response (second and
third conjuncts), but it then panics copying the UID out of the nil request
payload, so nothing is delivered (first conjunct): the code path the spec
describes is cut short by the nil dereference. -/
theorem serve_decode_failure_drops_failure_envelope :
    serveAdmission (some "\x7b \"kind\": \"NotAReview\" \x7d") "application/json"
        decodeGarbage admitAllow
      = ServeResult.goPanic
    ∧ (toAdmissionResponseFailure "Unable to deserialize request" [decodeGarbageMsg]).allowed
      = false
    ∧ (responseCauses
          (toAdmissionResponseFailure "Unable to deserialize request" [decodeGarbageMsg])).map
        StatusCause.message
      = [decodeGarbageMsg] :=
  ⟨rfl, rfl, rfl⟩

/-- C7 (amended): `serveAdmission` invokes its admission function exactly
when the body is non-empty, the content type is `application/json`, and the
envelope decodes, and the argument is exactly the decoded envelope — but a
successfully decoded envelope may still carry no request payload, so the
filtering the claim asserts does not cover the nil-request case. -/
theorem serve_admit_call_characterized
    (body : Option String) (ct : String)
    (decode : String → Except DecodeErr AdmissionReview)
    (admitFn : AdmissionReview → Option AdmissionResponse)
    (ar : AdmissionReview)
    (h : serveAdmitArg body ct decode = some ar) :
    ((body.getD "").length ≠ 0 ∧ ct = "application/json"
        ∧ decode (body.getD "") = Except.ok ar)
    ∧ serveAdmission body ct decode admitFn
      = (match admitFn ar with
         | none => ServeResult.goPanic
         | some resp => finalizeReview ar resp) := by
  unfold serveAdmitArg at h
  by_cases h0 : (body.getD "").length = 0
  · simp [h0] at h
  · by_cases h1 : ct = "application/json"
    · cases hdec : decode (body.getD "") with
      | error e => simp [h0, h1, hdec] at h
      | ok r =>
        simp only [h0, h1, hdec, if_neg, if_pos] at h
        simp at h
        subst h
        refine ⟨⟨h0, h1, ?_⟩, ?_⟩
        · rfl
        · unfold serveAdmission
          simp [h0, h1, hdec]
    · simp [h0, h1] at h

/-- Witness for `serve_admit_call_characterized` at a concrete input whose
envelope carries a request payload. -/
theorem serve_admit_call_characterized_witness :
    (((some "\x7b\x7d").getD "").length ≠ 0 ∧ "application/json" = "application/json"
        ∧ decodeToGood "\x7b\x7d" = Except.ok goodReview)
    ∧ serveAdmission (some "\x7b\x7d") "application/json" decodeToGood admitAllow
      = (match admitAllow goodReview with
         | none => ServeResult.goPanic
         | some resp => finalizeReview goodReview resp) :=
  serve_admit_call_characterized (some "\x7b\x7d") "application/json" decodeToGood
    admitAllow goodReview rfl

/-- C7 counterexample: a body that decodes successfully to an envelope with
no embedded `AdmissionRequest` is handed to the admission function as-is —
the dispatcher filters only empty bodies, wrong content types and decode
failures.  The third conjunct shows the consequence: the mutate admission
function dereferences the absent request and the handler panics. -/
theorem admit_called_with_absent_request :
    serveAdmitArg (some envelopeNoRequestBody) "application/json" decodeToNoReq
      = some reviewNoReq
    ∧ reviewNoReq.request = none
    ∧ serveAdmission (some envelopeNoRequestBody) "application/json" decodeToNoReq
        (mutatePrometheusRules unmRulesEmptyAnn genNoPatches)
      = ServeResult.goPanic :=
  ⟨rfl, rfl, rfl⟩

/-! ## The failure-response builder -/

/-- C8: `toAdmissionResponseFailure` always returns allowed=false with a
"Failure"/"Invalid" result carrying code 422 and the given message; it is
total in the error list (the empty list included), each input error becomes
one cause with that error's message, in order, and whenever at least one
error is supplied the details carry the resource kind name
"prometheusrules". -/
theorem toAdmissionResponseFailure_spec (message : String) (errors : List String) :
    (toAdmissionResponseFailure message errors).allowed = false
    ∧ (∃ st, (toAdmissionResponseFailure message errors).result = some st
        ∧ st.status = "Failure" ∧ st.reason = "Invalid" ∧ st.code = 422
        ∧ st.message = message
        ∧ ∃ d, st.details = some d
          ∧ d.causes = errors.map (fun e => { message := e })
          ∧ d.causes.length = errors.length
          ∧ (errors ≠ [] → d.name = "prometheusrules")) := by
  refine ⟨rfl, _, rfl, rfl, rfl, rfl, rfl, _, rfl, rfl, ?_, ?_⟩
  · simp [toAdmissionResponseFailure]
  · intro h
    cases errors with
    | nil => exact absurd rfl h
    | cons x xs => rfl

/-- Witness for `toAdmissionResponseFailure_spec` on a two-error input. -/
theorem toAdmissionResponseFailure_spec_witness :
    (toAdmissionResponseFailure "Rules are not valid" ["e1", "e2"]).allowed = false
    ∧ (∃ st, (toAdmissionResponseFailure "Rules are not valid" ["e1", "e2"]).result = some st
        ∧ st.status = "Failure" ∧ st.reason = "Invalid" ∧ st.code = 422
        ∧ st.message = "Rules are not valid"
        ∧ ∃ d, st.details = some d
          ∧ d.causes = ["e1", "e2"].map (fun e => { message := e })
          ∧ d.causes.length = (["e1", "e2"] : List String).length
          ∧ ((["e1", "e2"] : List String) ≠ [] → d.name = "prometheusrules")) :=
  toAdmissionResponseFailure_spec "Rules are not valid" ["e1", "e2"]

/-! ## Counters that were never registered -/

/-- C9 (amended): if the validation-triggered counter was never registered
(`RegisterMetrics` not called, the field still its nil zero value), the very
first statement of `validatePrometheusRules` calls `Inc()` on a nil
interface and panics: the increment is not a silent no-op, and validate
never completes for any input. -/
theorem validate_unregistered_triggered_panics
    (a : Admission)
    (unmarshalRule : String → Except String PrometheusRule)
    (validateRule : String → List String)
    (ar : AdmissionReview)
    (h : a.validationTriggeredCounter.registered = false) :
    validatePrometheusRules a unmarshalRule validateRule ar = none := by
  unfold validatePrometheusRules
  simp [Counter.inc, h]

/-- Witness for `validate_unregistered_triggered_panics` on a fresh
`New(logger)` receiver. -/
theorem validate_unregistered_triggered_panics_witness :
    newAdmission.validationTriggeredCounter.registered = false
    ∧ validatePrometheusRules newAdmission unmRuleOk valTwoErrs goodReview = none :=
  ⟨rfl, validate_unregistered_triggered_panics newAdmission unmRuleOk valTwoErrs
    goodReview rfl⟩

/-- C9 counterexample: with the counters never registered, validate does not
"complete and return its normal response": on a perfectly well-formed
validation request (expected resource, object that unmarshals, zero
validator errors — the input on which a registered receiver returns
allowed=true) it panics and produces nothing. -/
theorem validate_no_metrics_not_noop :
    validatePrometheusRules newAdmission unmRuleOk valNoErrs goodReview = none
    ∧ (∃ a', validatePrometheusRules registeredAdmission unmRuleOk valNoErrs goodReview
        = some (a', allowedResponse)) :=
  ⟨rfl, ⟨_, rfl⟩⟩

/-! ## Resource-kind mismatch -/

theorem counter_inc_of_registered (c : Counter) (h : c.registered = true) :
    c.inc = some { c with value := c.value + 1 } := by
  simp [Counter.inc, h]

/-- On a mismatched resource triple, mutate returns the one-cause failure
response (shared helper). -/
theorem mutate_mismatch_eq
    (unmarshalRules : String → Except String PrometheusRules)
    (gen : String → Except String (List String))
    (ar : AdmissionReview) (req : AdmissionRequest)
    (hreq : ar.request = some req)
    (hne : req.resource ≠ ruleResource) :
    mutatePrometheusRules unmarshalRules gen ar
      = some (toAdmissionResponseFailure "Unexpected resource kind"
          [resourceMismatchMessage req.resource]) := by
  unfold mutatePrometheusRules
  rw [hreq]
  simp [hne]

/-- On a mismatched resource triple, validate increments both counters and
returns the one-cause failure response (shared helper). -/
theorem validate_mismatch_eq
    (a : Admission)
    (unmarshalRule : String → Except String PrometheusRule)
    (validateRule : String → List String)
    (ar : AdmissionReview) (req : AdmissionRequest)
    (hT : a.validationTriggeredCounter.registered = true)
    (hE : a.validationErrorsCounter.registered = true)
    (hreq : ar.request = some req)
    (hne : req.resource ≠ ruleResource) :
    validatePrometheusRules a unmarshalRule validateRule ar
      = some
          ({ a with
              validationTriggeredCounter :=
                { a.validationTriggeredCounter with
                    value := a.validationTriggeredCounter.value + 1 }
              validationErrorsCounter :=
                { a.validationErrorsCounter with
                    value := a.validationErrorsCounter.value + 1 } },
            toAdmissionResponseFailure "Unexpected resource kind"
              [resourceMismatchMessage req.resource]) := by
  unfold validatePrometheusRules
  rw [counter_inc_of_registered _ hT, hreq]
  simp [hne, counter_inc_of_registered _ hE]

/-- C5: for every envelope whose request resource triple differs from the
statically configured `monitoring.coreos.com/v1/prometheusrules`, both
mutate and validate return allowed=false with exactly one cause, whose
message describes the mismatch (it names the expected and the received
triples), regardless of the embedded object payload (the unmarshallers,
patch generator and validator are universally quantified and never
reached). -/
theorem resource_mismatch_rejected
    (a : Admission)
    (unmarshalRules : String → Except String PrometheusRules)
    (gen : String → Except String (List String))
    (unmarshalRule : String → Except String PrometheusRule)
    (validateRule : String → List String)
    (ar : AdmissionReview) (req : AdmissionRequest)
    (hT : a.validationTriggeredCounter.registered = true)
    (hE : a.validationErrorsCounter.registered = true)
    (hreq : ar.request = some req)
    (hne : req.resource ≠ ruleResource) :
    mutatePrometheusRules unmarshalRules gen ar
      = some (toAdmissionResponseFailure "Unexpected resource kind"
          [resourceMismatchMessage req.resource])
    ∧ (∃ a', validatePrometheusRules a unmarshalRule validateRule ar
        = some (a', toAdmissionResponseFailure "Unexpected resource kind"
            [resourceMismatchMessage req.resource]))
    ∧ (toAdmissionResponseFailure "Unexpected resource kind"
        [resourceMismatchMessage req.resource]).allowed = false
    ∧ (responseCauses (toAdmissionResponseFailure "Unexpected resource kind"
        [resourceMismatchMessage req.resource])).map StatusCause.message
      = [resourceMismatchMessage req.resource]
    ∧ resourceMismatchMessage req.resource
      = "expected resource to be " ++ gvrText ruleResource ++ ", but received "
          ++ gvrText req.resource := by
  refine ⟨mutate_mismatch_eq unmarshalRules gen ar req hreq hne,
    ⟨_, validate_mismatch_eq a unmarshalRule validateRule ar req hT hE hreq hne⟩,
    rfl, rfl, rfl⟩

/-- Witness for `resource_mismatch_rejected` on a `deployments` review. -/
theorem resource_mismatch_rejected_witness :
    mutatePrometheusRules unmRulesEmptyAnn genNoPatches wrongReview
      = some (toAdmissionResponseFailure "Unexpected resource kind"
          [resourceMismatchMessage wrongRequest.resource])
    ∧ (∃ a', validatePrometheusRules registeredAdmission unmRuleOk valNoErrs wrongReview
        = some (a', toAdmissionResponseFailure "Unexpected resource kind"
            [resourceMismatchMessage wrongRequest.resource]))
    ∧ (responseCauses (toAdmissionResponseFailure "Unexpected resource kind"
        [resourceMismatchMessage wrongRequest.resource])).map StatusCause.message
      = [resourceMismatchMessage wrongRequest.resource] := by
  obtain ⟨h1, h2, _, h4, _⟩ := resource_mismatch_rejected registeredAdmission
    unmRulesEmptyAnn genNoPatches unmRuleOk valNoErrs wrongReview wrongRequest
    rfl rfl rfl (by decide)
  exact ⟨h1, h2, h4⟩

/-- C10: on a resource-kind mismatch the mutate path leaves the receiver
state (both counters) exactly unchanged, while the validate path bumps both
the validation-triggered and the validation-errors counter by one,
preserving their registration — and, counters aside, neither path changes
anything else in the `Admission` state (the resulting states are fully
characterized). -/
theorem resource_mismatch_counter_frame
    (a : Admission)
    (unmarshalRules : String → Except String PrometheusRules)
    (gen : String → Except String (List String))
    (unmarshalRule : String → Except String PrometheusRule)
    (validateRule : String → List String)
    (ar : AdmissionReview) (req : AdmissionRequest)
    (hT : a.validationTriggeredCounter.registered = true)
    (hE : a.validationErrorsCounter.registered = true)
    (hreq : ar.request = some req)
    (hne : req.resource ≠ ruleResource) :
    mutatePrometheusRulesA a unmarshalRules gen ar
      = some (a, toAdmissionResponseFailure "Unexpected resource kind"
          [resourceMismatchMessage req.resource])
    ∧ validatePrometheusRules a unmarshalRule validateRule ar
      = some
          ({ a with
              validationTriggeredCounter :=
                { a.validationTriggeredCounter with
                    value := a.validationTriggeredCounter.value + 1 }
              validationErrorsCounter :=
                { a.validationErrorsCounter with
                    value := a.validationErrorsCounter.value + 1 } },
            toAdmissionResponseFailure "Unexpected resource kind"
              [resourceMismatchMessage req.resource]) := by
  constructor
  · unfold mutatePrometheusRulesA
    rw [mutate_mismatch_eq unmarshalRules gen ar req hreq hne]
    rfl
  · exact validate_mismatch_eq a unmarshalRule validateRule ar req hT hE hreq hne

/-- Witness for `resource_mismatch_counter_frame`: on the concrete
`deployments` review the mutate receiver state is untouched and the validate
receiver state has both counters at one. -/
theorem resource_mismatch_counter_frame_witness :
    (∃ p, mutatePrometheusRulesA registeredAdmission unmRulesEmptyAnn genNoPatches
        wrongReview = some (registeredAdmission, p))
    ∧ (∃ a2 q, validatePrometheusRules registeredAdmission unmRuleOk valNoErrs wrongReview
        = some (a2, q)
        ∧ a2.validationTriggeredCounter = { registered := true, value := 1 }
        ∧ a2.validationErrorsCounter = { registered := true, value := 1 }) := by
  obtain ⟨h1, h2⟩ := resource_mismatch_counter_frame registeredAdmission
    unmRulesEmptyAnn genNoPatches unmRuleOk valNoErrs wrongReview wrongRequest
    rfl rfl rfl (by decide)
  exact ⟨⟨_, h1⟩, ⟨_, _, h2, rfl, rfl⟩⟩

/-! ## The validate decision -/

/-- C4: on a validate request with the expected resource triple whose object
unmarshals, a non-empty validator error sequence of length N yields
allowed=false, message "Rules are not valid", and a cause list of length
exactly N carrying the validator errors' messages in the same order. -/
theorem validate_invalid_rules_causes
    (a : Admission)
    (unmarshalRule : String → Except String PrometheusRule)
    (validateRule : String → List String)
    (ar : AdmissionReview) (req : AdmissionRequest) (promRule : PrometheusRule)
    (errs : List String)
    (hT : a.validationTriggeredCounter.registered = true)
    (hE : a.validationErrorsCounter.registered = true)
    (hreq : ar.request = some req)
    (hres : req.resource = ruleResource)
    (hunm : unmarshalRule req.objectRaw = Except.ok promRule)
    (hval : validateRule promRule.spec = errs)
    (hne : errs ≠ []) :
    ∃ a' resp, validatePrometheusRules a unmarshalRule validateRule ar = some (a', resp)
      ∧ resp = toAdmissionResponseFailure "Rules are not valid" errs
      ∧ resp.allowed = false
      ∧ (∃ st, resp.result = some st ∧ st.message = "Rules are not valid")
      ∧ (responseCauses resp).map StatusCause.message = errs
      ∧ (responseCauses resp).length = errs.length := by
  have hlen : errs.length ≠ 0 := by
    simpa using hne
  have hmain : validatePrometheusRules a unmarshalRule validateRule ar
      = some
          ({ a with
              validationTriggeredCounter :=
                { a.validationTriggeredCounter with
                    value := a.validationTriggeredCounter.value + 1 }
              validationErrorsCounter :=
                { a.validationErrorsCounter with
                    value := a.validationErrorsCounter.value + 1 } },
            toAdmissionResponseFailure "Rules are not valid" errs) := by
    unfold validatePrometheusRules
    rw [counter_inc_of_registered _ hT, hreq]
    simp [hres, hunm, hval, hlen, counter_inc_of_registered _ hE]
  refine ⟨_, _, hmain, rfl, rfl, ⟨_, rfl, rfl⟩, ?_, ?_⟩
  · show List.map StatusCause.message
        (errs.map (fun e => ({ message := e } : StatusCause))) = errs
    rw [List.map_map]
    have hcomp : (StatusCause.message ∘ fun e => ({ message := e } : StatusCause)) = id := rfl
    rw [hcomp, List.map_id]
  · show (errs.map (fun e => ({ message := e } : StatusCause))).length = errs.length
    rw [List.length_map]

/-- Witness for `validate_invalid_rules_causes` with a two-error validator. -/
theorem validate_invalid_rules_causes_witness :
    ∃ a' resp, validatePrometheusRules registeredAdmission unmRuleOk valTwoErrs goodReview
        = some (a', resp)
      ∧ resp.allowed = false
      ∧ (∃ st, resp.result = some st ∧ st.message = "Rules are not valid")
      ∧ (responseCauses resp).map StatusCause.message
        = ["group 0, rule 0: unknown expr", "group 0, rule 1: bad label value"]
      ∧ (responseCauses resp).length = 2 := by
  obtain ⟨a', resp, h1, _, h3, h4, h5, h6⟩ := validate_invalid_rules_causes
    registeredAdmission unmRuleOk valTwoErrs goodReview goodRequest promRule0
    ["group 0, rule 0: unknown expr", "group 0, rule 1: bad label value"]
    rfl rfl rfl rfl rfl rfl (by simp)
  exact ⟨a', resp, h1, h3, h4, h5, h6⟩

/-- C6: on a validate request with the expected resource triple whose object
unmarshals and for which the external validator reports no errors, validate
returns allowed=true with no patch and no result. -/
theorem validate_valid_allows
    (a : Admission)
    (unmarshalRule : String → Except String PrometheusRule)
    (validateRule : String → List String)
    (ar : AdmissionReview) (req : AdmissionRequest) (promRule : PrometheusRule)
    (hT : a.validationTriggeredCounter.registered = true)
    (hreq : ar.request = some req)
    (hres : req.resource = ruleResource)
    (hunm : unmarshalRule req.objectRaw = Except.ok promRule)
    (hval : validateRule promRule.spec = []) :
    ∃ a', validatePrometheusRules a unmarshalRule validateRule ar
        = some (a', allowedResponse)
      ∧ allowedResponse.allowed = true
      ∧ allowedResponse.patch = none
      ∧ allowedResponse.result = none := by
  have hmain : validatePrometheusRules a unmarshalRule validateRule ar
      = some
          ({ a with
              validationTriggeredCounter :=
                { a.validationTriggeredCounter with
                    value := a.validationTriggeredCounter.value + 1 } },
            allowedResponse) := by
    unfold validatePrometheusRules
    rw [counter_inc_of_registered _ hT, hreq]
    simp [hres, hunm, hval]
  exact ⟨_, hmain, rfl, rfl, rfl⟩

/-- Witness for `validate_valid_allows` with a zero-error validator. -/
theorem validate_valid_allows_witness :
    ∃ a', validatePrometheusRules registeredAdmission unmRuleOk valNoErrs goodReview
      = some (a', allowedResponse) := by
  obtain ⟨a', h, _⟩ := validate_valid_allows registeredAdmission unmRuleOk valNoErrs
    goodReview goodRequest promRule0 rfl rfl rfl rfl rfl
  exact ⟨a', h⟩

/-! ## The mutation patch -/

/-- Modelled from the spec: the contract of the external patch-generation
helper `generatePatchesForNonStringLabelsAnnotations`, whose source is not
among the inspected files.  Per the spec it returns an ordered sequence of
already-serialized JSON-Patch operation fragments — each a complete JSON
object as text — addressing non-string label/annotation values inside the
raw rule specification, so none of its fragments touches the object's
top-level metadata annotations path. -/
def GenContract (gen : String → Except String (List String)) : Prop :=
  ∀ raw frags, gen raw = Except.ok frags →
    ∀ f ∈ frags, isJsonObjectStr f = true ∧ mentionsAnnPath f = false

/-- A string that is the serialization of a JSON array: bracket-wrapped
comma-join of JSON object texts. -/
def IsJsonArrayOfObjects (s : String) : Prop :=
  ∃ frags : List String,
    s = "[" ++ String.intercalate "," frags ++ "]"
    ∧ ∀ f ∈ frags, isJsonObjectStr f = true

/-- The annotations patch fragment the mutate path appends: the
map-creating one when the object has zero annotations, the single-key one
otherwise. -/
def annPatchFor (rule : PrometheusRules) : String :=
  if rule.annotations.length = 0 then addFirstAnnotationPatch
  else addAdditionalAnnotationPatch

/-- C3: on a mutate request with the expected resource triple whose object
unmarshals and whose patch generation succeeds, the response is allowed=true
with patch type JSONPatch; the patch payload is a JSON array made of the
generated fragments plus exactly one annotations operation, appended last,
whose path is `/metadata/annotations` when the object's annotations map is
empty (creating the map with prometheus-operator-validated=true) and
`/metadata/annotations/prometheus-operator-validated` otherwise. -/
theorem mutate_patch_wellformed
    (unmarshalRules : String → Except String PrometheusRules)
    (gen : String → Except String (List String))
    (ar : AdmissionReview) (req : AdmissionRequest) (rule : PrometheusRules)
    (frags0 : List String)
    (hcontract : GenContract gen)
    (hreq : ar.request = some req)
    (hres : req.resource = ruleResource)
    (hunm : unmarshalRules req.objectRaw = Except.ok rule)
    (hgen : gen rule.specRaw = Except.ok frags0) :
    mutatePrometheusRules unmarshalRules gen ar
      = some
          { uid := ""
            allowed := true
            result := none
            patch := some ("[" ++ String.intercalate "," (frags0 ++ [annPatchFor rule]) ++ "]")
            patchType := some "JSONPatch" }
    ∧ IsJsonArrayOfObjects ("[" ++ String.intercalate "," (frags0 ++ [annPatchFor rule]) ++ "]")
    ∧ (frags0 ++ [annPatchFor rule]).filter (fun f => mentionsAnnPath f) = [annPatchFor rule]
    ∧ annPatchFor rule
      = (if rule.annotations.length = 0 then addFirstAnnotationPatch
         else addAdditionalAnnotationPatch)
    ∧ patchPath (annPatchFor rule)
      = (if rule.annotations.length = 0 then "/metadata/annotations"
         else "/metadata/annotations/prometheus-operator-validated") := by
  have hfrags0 : ∀ f ∈ frags0, isJsonObjectStr f = true ∧ mentionsAnnPath f = false :=
    hcontract rule.specRaw frags0 hgen
  have hann : isJsonObjectStr (annPatchFor rule) = true
      ∧ mentionsAnnPath (annPatchFor rule) = true := by
    unfold annPatchFor
    by_cases h : rule.annotations.length = 0
    · rw [if_pos h]
      exact ⟨rfl, rfl⟩
    · rw [if_neg h]
      exact ⟨rfl, rfl⟩
  have hmut : mutatePrometheusRules unmarshalRules gen ar
      = some
          { uid := ""
            allowed := true
            result := none
            patch := some ("[" ++ String.intercalate "," (frags0 ++ [annPatchFor rule]) ++ "]")
            patchType := some "JSONPatch" } := by
    unfold mutatePrometheusRules annPatchFor
    rw [hreq]
    simp [hres, hunm, hgen]
  have hfil : (frags0 ++ [annPatchFor rule]).filter (fun f => mentionsAnnPath f)
      = [annPatchFor rule] := by
    rw [List.filter_append]
    have h1 : frags0.filter (fun f => mentionsAnnPath f) = [] := by
      rw [List.filter_eq_nil_iff]
      intro f hf
      simp [(hfrags0 f hf).2]
    rw [h1]
    simp [hann.2]
  have hobj : ∀ f ∈ frags0 ++ [annPatchFor rule], isJsonObjectStr f = true := by
    intro f hf
    rcases List.mem_append.mp hf with h | h
    · exact (hfrags0 f h).1
    · rw [List.mem_singleton] at h
      rw [h]
      exact hann.1
  have hpath : patchPath (annPatchFor rule)
      = (if rule.annotations.length = 0 then "/metadata/annotations"
         else "/metadata/annotations/prometheus-operator-validated") := by
    unfold annPatchFor
    by_cases h : rule.annotations.length = 0
    · rw [if_pos h, if_pos h]
      rfl
    · rw [if_neg h, if_neg h]
      rfl
  exact ⟨hmut, ⟨frags0 ++ [annPatchFor rule], rfl, hobj⟩, hfil, rfl, hpath⟩

/-- Witness for `mutate_patch_wellformed` on an annotation-free rule object
and a generator producing no fragments. -/
theorem mutate_patch_wellformed_witness :
    mutatePrometheusRules unmRulesEmptyAnn genNoPatches goodReview
      = some
          { uid := ""
            allowed := true
            result := none
            patch := some ("[" ++ String.intercalate "," ([] ++ [annPatchFor ruleNoAnn]) ++ "]")
            patchType := some "JSONPatch" }
    ∧ IsJsonArrayOfObjects
        ("[" ++ String.intercalate "," ([] ++ [annPatchFor ruleNoAnn]) ++ "]")
    ∧ patchPath (annPatchFor ruleNoAnn) = "/metadata/annotations" := by
  have hcontract : GenContract genNoPatches := by
    intro raw frags h f hf
    simp only [genNoPatches, Except.ok.injEq] at h
    rw [← h] at hf
    cases hf
  obtain ⟨h1, h2, _, _, h5⟩ := mutate_patch_wellformed unmRulesEmptyAnn genNoPatches
    goodReview goodRequest ruleNoAnn [] hcontract rfl rfl rfl rfl
  exact ⟨h1, h2, h5⟩
